import Mathlib

/-!
Shallow embedding of the task-CRUD variants of this repository.

The repository contains three implementations of the same CRUD "task"
resource:
- `fastapi/main.py`: an in-memory variant storing plain dicts in the list
  `my_tasks`, with ids drawn by `randrange(3, 10000)`;
- `APIWithTestCases/fastapiEx/`: a SQLAlchemy-backed variant (router,
  schemas, models, database);
- `FastAPI With Sqlalcehmy/Postgresql/app/`: a near-identical
  SQLAlchemy-backed variant differing in its `get_db` error handling.

Stores are embedded as Lean lists in insertion order; the database-assigned
serial id and server-default timestamp are passed as explicit arguments;
exceptions become `Except`; HTTP responses become records carrying the
status code the route would produce.
-/

/-- An HTTP error response: status code plus the detail message passed to
`HTTPException` (or produced by request-body validation). -/
structure HttpError where
  status : Nat
  detail : String
deriving DecidableEq, Repr

/-- A successful HTTP response: the route's status code plus the body. -/
structure ApiResponse (α : Type) where
  status : Nat
  body : α
deriving DecidableEq, Repr

/-- SQL LIKE pattern matching over lists of characters, as generated by
SQLAlchemy's `Column.contains`: `%` matches any (possibly empty) character
sequence, `_` matches exactly one character, every other pattern character
matches itself; the whole string must match the whole pattern. -/
def likeMatch : List Char → List Char → Bool
  | [], s => s.isEmpty
  | '%' :: ps, s => s.tails.any (fun v => likeMatch ps v)
  | '_' :: _, [] => false
  | '_' :: ps, _ :: s => likeMatch ps s
  | _ :: _, [] => false
  | c :: ps, d :: s => c == d && likeMatch ps s

namespace FastapiEx

/-- Row of the `tasks` table (`fastapiEx/models.py`): integer primary key
`id`, required `name`, nullable `description`, `completed` defaulting to
false, and a server-defaulted `created_at` timestamp (embedded as an
opaque natural number). -/
structure Task where
  id : Int
  name : String
  description : Option String
  completed : Bool
  created_at : Nat
deriving DecidableEq, Repr

/-- The stored table, in insertion order. -/
abbrev DB := List Task

/-- `schemas.TaskCreate` (inheriting `TaskBase`): required `name`, optional
`description` (default null), `completed` defaulting to false. -/
structure TaskCreate where
  name : String
  description : Option String := none
  completed : Bool := false
deriving DecidableEq, Repr

/-- `schemas.TaskUpdate`: all three fields optional. `none` in the outer
option means the field was absent from the request body (pydantic "unset"),
so `dict(exclude_unset=True)` omits it; for `description` the inner option
is the nullable value itself. -/
structure TaskUpdate where
  name : Option String := none
  description : Option (Option String) := none
  completed : Option Bool := none
deriving DecidableEq, Repr

/-- A request body for POST /tasks before pydantic validation: each field
is present or absent. -/
structure RawBody where
  name : Option String := none
  description : Option (Option String) := none
  completed : Option Bool := none
deriving DecidableEq, Repr

/-- Pydantic validation of a POST body against `schemas.TaskCreate`:
a body missing the required `name` is rejected with a 422 validation
error before the route function (and hence the storage backend) runs;
otherwise absent optional fields take their declared defaults. -/
def validate_create (b : RawBody) : Except HttpError TaskCreate :=
  match b.name with
  | none => .error { status := 422, detail := "field required" }
  | some n =>
      .ok { name := n
            description := match b.description with
              | some d => d
              | none => none
            completed := b.completed.getD false }

/-- The filter `models.Task.name.contains(search)` from `get_tasks`:
SQLAlchemy emits `name LIKE '%' || search || '%'` with the search term
embedded unescaped, so `%` and `_` inside `search` act as wildcards. -/
def nameLike (search nm : String) : Bool :=
  likeMatch ('%' :: (search.data ++ ['%'])) nm.data

/-- GET /tasks (`router.get_tasks`): filter by `name.contains(search)`,
then `.limit(limit).offset(skip)`, which SQL applies as OFFSET first and
LIMIT second; route status 200. -/
def get_tasks (db : DB) (limit skip : Nat) (search : String) :
    ApiResponse (List Task) :=
  { status := 200
    body := ((db.filter (fun t => nameLike search t.name)).drop skip).take limit }

/-- POST /tasks route body (`router.create_task`): build a row from the
validated input, `db.add`/`db.commit`/`db.refresh`; the backend assigns
the serial primary key (`freshId`) and the server-default timestamp
(`now`). Route status 201. -/
def create_task (db : DB) (freshId : Int) (now : Nat) (tc : TaskCreate) :
    Task × DB :=
  let t : Task :=
    { id := freshId, name := tc.name, description := tc.description
      completed := tc.completed, created_at := now }
  (t, db ++ [t])

/-- POST /tasks including the framework's validation boundary: validation
failure returns 422 and never touches the store. -/
def post_tasks (db : DB) (freshId : Int) (now : Nat) (b : RawBody) :
    Except HttpError (ApiResponse Task) × DB :=
  match validate_create b with
  | .error e => (.error e, db)
  | .ok tc =>
      let p := create_task db freshId now tc
      (.ok { status := 201, body := p.1 }, p.2)

/-- GET /tasks/{task_id} (`router.get_task`): `.filter(Task.id == task_id).first()`,
404 with a message naming the id when absent, else the row with status 200. -/
def get_task (db : DB) (task_id : Int) : Except HttpError (ApiResponse Task) :=
  match db.find? (fun t => t.id == task_id) with
  | some t => .ok { status := 200, body := t }
  | none =>
      .error { status := 404
               detail := "Task with id: " ++ toString task_id ++ " not found" }

/-- The `for key, value in updated_task.dict(exclude_unset=True).items():
setattr(task, key, value)` loop of `router.update_task`: only fields
present in the request are assigned; `id` and `created_at` are not fields
of `TaskUpdate` and are never assigned. -/
def applyUpdate (t : Task) (u : TaskUpdate) : Task :=
  { t with
    name := match u.name with
      | some v => v
      | none => t.name
    description := match u.description with
      | some v => v
      | none => t.description
    completed := match u.completed with
      | some v => v
      | none => t.completed }

/-- Replace the first element satisfying `p` (the ORM object returned by
`.first()`, mutated in place) by `t2`. -/
def setFirst (p : Task → Bool) (t2 : Task) : List Task → List Task
  | [] => []
  | t :: ts => if p t then t2 :: ts else t :: setFirst p t2 ts

/-- PUT /tasks/{task_id} (`router.update_task`): 404 when no row has the
id, else apply the present fields to the found row, commit, and return the
updated row with status 200. -/
def update_task (db : DB) (task_id : Int) (u : TaskUpdate) :
    Except HttpError (ApiResponse Task) × DB :=
  match db.find? (fun t => t.id == task_id) with
  | none =>
      (.error { status := 404
                detail := "Task with id: " ++ toString task_id ++ " does not exist" },
       db)
  | some t =>
      let t2 := applyUpdate t u
      (.ok { status := 200, body := t2 },
       setFirst (fun r => r.id == task_id) t2 db)

/-- Remove the first element satisfying `p` (the row found by `.first()`
and passed to `db.delete`). -/
def eraseFirst (p : Task → Bool) : List Task → List Task
  | [] => []
  | t :: ts => if p t then ts else t :: eraseFirst p ts

/-- DELETE /tasks/{task_id} (`router.delete_task`): 404 when no row has
the id, else delete the found row, commit, and return an empty response
with status 204. -/
def delete_task (db : DB) (task_id : Int) :
    Except HttpError (ApiResponse Unit) × DB :=
  match db.find? (fun t => t.id == task_id) with
  | none =>
      (.error { status := 404
                detail := "Task with id: " ++ toString task_id ++ " does not exist" },
       db)
  | some _ =>
      (.ok { status := 204, body := () },
       eraseFirst (fun t => t.id == task_id) db)

end FastapiEx

namespace InMemory

/-- The pydantic request model `Task` of `fastapi/main.py`: required
`name`, required `task`, `completed` defaulting to false (there is no
`description` field in this variant). -/
structure Task where
  name : String
  task : String
  completed : Bool := false
deriving DecidableEq, Repr

/-- A dict stored in `my_tasks`: the two seeded dicts carry only `id`,
`name` and `task`, while dicts built from the pydantic model also carry
`completed`; the possibly missing key is embedded as an option. -/
structure StoredTask where
  id : Int
  name : String
  task : String
  completed : Option Bool := none
deriving DecidableEq, Repr

/-- The module-level seed list `my_tasks` of `fastapi/main.py`. -/
def my_tasks : List StoredTask :=
  [ { id := 1, name := "test1", task := "test1" },
    { id := 2, name := "test2", task := "test2" } ]

/-- `find_post_index`: index of the first dict whose `id` matches, `None`
when there is none. -/
def find_post_index (id : Int) (tasks : List StoredTask) : Option Nat :=
  tasks.findIdx? (fun t => t.id == id)

/-- A request body for this variant before pydantic validation. -/
structure RawBody where
  name : Option String := none
  task : Option String := none
  completed : Option Bool := none
deriving DecidableEq, Repr

/-- Pydantic validation against the `Task` model of `fastapi/main.py`:
both `name` and `task` are required, so a body missing either is rejected
with a 422 validation error before the route function runs. -/
def validate_body (b : RawBody) : Except HttpError Task :=
  match b.name, b.task with
  | some n, some tk => .ok { name := n, task := tk, completed := b.completed.getD false }
  | _, _ => .error { status := 422, detail := "field required" }

/-- POST /tasks route body (`create_task` in `fastapi/main.py`): the dict
of the validated model gets `id = randrange(3, 10000)` (the draw `r` is
passed explicitly) and is appended to `my_tasks`; route status 201. -/
def create_task (tasks : List StoredTask) (r : Int) (m : Task) :
    StoredTask × List StoredTask :=
  let t : StoredTask :=
    { id := r, name := m.name, task := m.task, completed := some m.completed }
  (t, tasks ++ [t])

/-- POST /tasks including the framework's validation boundary. -/
def post_tasks (tasks : List StoredTask) (r : Int) (b : RawBody) :
    Except HttpError (ApiResponse StoredTask) × List StoredTask :=
  match validate_body b with
  | .error e => (.error e, tasks)
  | .ok m =>
      let p := create_task tasks r m
      (.ok { status := 201, body := p.1 }, p.2)

/-- DELETE /tasks/{id} (`delete_task` in `fastapi/main.py`): 404 when
`find_post_index` yields `None`, else `my_tasks.pop(index)` and an empty
`Response(status_code=204)`. -/
def delete_task (tasks : List StoredTask) (id : Int) :
    Except HttpError (ApiResponse Unit) × List StoredTask :=
  match find_post_index id tasks with
  | none =>
      (.error { status := 404
                detail := "Task not found with this id " ++ toString id },
       tasks)
  | some index => (.ok { status := 204, body := () }, tasks.eraseIdx index)

/-- PUT /tasks/{id} (`update_task` in `fastapi/main.py`): 404 when the id
is absent; otherwise the WHOLE stored dict is replaced by the dict of the
request model with the path id re-attached (`task["id"] = id;
my_tasks[index] = task`) — a replace, not a merge. Status 200. -/
def update_task (tasks : List StoredTask) (id : Int) (m : Task) :
    Except HttpError (ApiResponse StoredTask) × List StoredTask :=
  match find_post_index id tasks with
  | none =>
      (.error { status := 404
                detail := "Task not found with this id " ++ toString id },
       tasks)
  | some index =>
      let t : StoredTask :=
        { id := id, name := m.name, task := m.task, completed := some m.completed }
      (.ok { status := 200, body := t }, tasks.set index t)

/-- PUT /tasks/{id} including the framework's validation boundary. -/
def put_tasks (tasks : List StoredTask) (id : Int) (b : RawBody) :
    Except HttpError (ApiResponse StoredTask) × List StoredTask :=
  match validate_body b with
  | .error e => (.error e, tasks)
  | .ok m => update_task tasks id m

end InMemory

/-- Outcome of the endpoint body executed while a `get_db` session is open:
either it succeeds, or the storage engine raises a `SQLAlchemyError`. -/
inductive ReqOutcome where
  | success
  | sqlError
deriving DecidableEq, Repr

/-- What the `get_db` generator does to its session on a given outcome:
whether `db.rollback()` ran, whether `db.close()` ran, and whether the
error escapes the generator to the caller. -/
structure SessionTrace where
  rolledBack : Bool
  closed : Bool
  propagated : Bool
deriving DecidableEq, Repr

namespace FastapiEx

/-- Session lifecycle of `get_db` in `APIWithTestCases/fastapiEx/database.py`:
the body is `try: yield db / finally: db.close()` with no except clause, so
a `SQLAlchemyError` thrown into the generator closes the session and
propagates; no rollback is ever performed (despite the docstring of
`get_db`, which says exceptions are handled by rolling back the session). -/
def get_db_trace : ReqOutcome → SessionTrace
  | .success => { rolledBack := false, closed := true, propagated := false }
  | .sqlError => { rolledBack := false, closed := true, propagated := true }

end FastapiEx

namespace Postgresql

/-- Session lifecycle of `get_db` in
`FastAPI With Sqlalcehmy/Postgresql/app/database.py`: the except clause
catches `SQLAlchemyError`, prints, calls `db.rollback()` and does NOT
re-raise, so the error is swallowed; the finally clause closes the
session. -/
def get_db_trace : ReqOutcome → SessionTrace
  | .success => { rolledBack := false, closed := true, propagated := false }
  | .sqlError => { rolledBack := true, closed := true, propagated := false }

end Postgresql

/-! Helper lemmas about the embedded operations. -/

theorem likeMatch_single_percent (s : List Char) : likeMatch ['%'] s = true := by
  have h0 : ([] : List Char) ∈ s.tails := (List.mem_tails [] s).mpr List.nil_suffix
  have hu : likeMatch ['%'] s = s.tails.any (fun v => likeMatch [] v) := by
    simp [likeMatch]
  rw [hu]
  exact List.any_eq_true.mpr ⟨[], h0, by simp [likeMatch]⟩

theorem likeMatch_double_percent (s : List Char) : likeMatch ['%', '%'] s = true := by
  have h0 : s ∈ s.tails := (List.mem_tails s s).mpr (List.suffix_refl s)
  have hu : likeMatch ['%', '%'] s = s.tails.any (fun v => likeMatch ['%'] v) := by
    simp [likeMatch]
  rw [hu]
  exact List.any_eq_true.mpr ⟨s, h0, likeMatch_single_percent s⟩

theorem nameLike_empty_search (nm : String) : FastapiEx.nameLike "" nm = true :=
  likeMatch_double_percent nm.data

theorem find?_eraseFirst_of_nodup (i : Int) :
    ∀ db : List FastapiEx.Task, (db.map FastapiEx.Task.id).Nodup →
      (FastapiEx.eraseFirst (fun t => t.id == i) db).find? (fun t => t.id == i) = none := by
  intro db
  induction db with
  | nil => intro _; rfl
  | cons t ts ih =>
      intro h
      have h2 : (ts.map FastapiEx.Task.id).Nodup := by
        simpa using (List.nodup_cons.mp (by simpa using h)).2
      cases hp : (t.id == i) with
      | true =>
          have hti : t.id = i := by simpa using hp
          have hnotin : t.id ∉ ts.map FastapiEx.Task.id :=
            (List.nodup_cons.mp (by simpa using h)).1
          have : FastapiEx.eraseFirst (fun r => r.id == i) (t :: ts) = ts := by
            simp [FastapiEx.eraseFirst, hp]
          rw [this]
          refine List.find?_eq_none.mpr ?_
          intro r hr hri
          exact hnotin (by
            have : r.id = i := by simpa using hri
            rw [hti, ← this]
            exact List.mem_map.mpr ⟨r, hr, rfl⟩)
      | false =>
          have : FastapiEx.eraseFirst (fun r => r.id == i) (t :: ts) =
              t :: FastapiEx.eraseFirst (fun r => r.id == i) ts := by
            simp [FastapiEx.eraseFirst, hp]
          rw [this, List.find?_cons, hp]
          exact ih h2

theorem mem_setFirst (p : FastapiEx.Task → Bool) (t2 : FastapiEx.Task) :
    ∀ (db : List FastapiEx.Task) (t : FastapiEx.Task),
      db.find? p = some t → t2 ∈ FastapiEx.setFirst p t2 db := by
  intro db
  induction db with
  | nil => intro t h; simp [List.find?] at h
  | cons r rs ih =>
      intro t h
      cases hp : p r with
      | true => simp [FastapiEx.setFirst, hp]
      | false =>
          rw [List.find?_cons, hp] at h
          simp only [FastapiEx.setFirst, hp, Bool.false_eq_true, if_false]
          exact List.mem_cons_of_mem r (ih t h)

/-! Claim theorems. -/

/-- Claim C2 (code bug, evaluated at the failing input): in the in-memory
variant, `create_task` draws `id = randrange(3, 10000)` with no collision
check, so two creates whose draws coincide (both 3 here) leave the store
with a duplicated id: starting from the seeds (ids 1 and 2), the stored
ids become [1, 2, 3, 3], violating id uniqueness among created records. -/
theorem inmemory_create_duplicate_id :
    (((InMemory.create_task
        (InMemory.create_task InMemory.my_tasks 3 { name := "a", task := "a" }).2
        3 { name := "b", task := "b" }).2).map InMemory.StoredTask.id) = [1, 2, 3, 3] := by
  rfl

/-- Claim C4 (code bug, evaluated at the failing outcome): when a
`SQLAlchemyError` is raised during a request, the fastapiEx `get_db`
closes the session and lets the error propagate WITHOUT rolling back
(contradicting its own docstring), while the Postgresql `get_db` rolls
back but swallows the error instead of propagating it; in neither variant
does a rollback precede propagation as the claim requires. -/
theorem get_db_error_handling :
    FastapiEx.get_db_trace ReqOutcome.sqlError =
      { rolledBack := false, closed := true, propagated := true } ∧
    Postgresql.get_db_trace ReqOutcome.sqlError =
      { rolledBack := true, closed := true, propagated := false } :=
  ⟨rfl, rfl⟩

/-- Claim C9: in the in-memory variant every id assigned by `create_task`
is the draw of `randrange(3, 10000)`, hence lies in 3..9999 inclusive and
never equals the seeded ids 1 and 2. -/
theorem inmemory_create_id_range (db : List InMemory.StoredTask) (m : InMemory.Task)
    (r : Int) (h3 : 3 ≤ r) (h4 : r < 10000) :
    3 ≤ (InMemory.create_task db r m).1.id ∧
    (InMemory.create_task db r m).1.id ≤ 9999 ∧
    (InMemory.create_task db r m).1.id ≠ 1 ∧
    (InMemory.create_task db r m).1.id ≠ 2 := by
  simp only [InMemory.create_task]
  omega

/-- Witness for `inmemory_create_id_range` at the draw r = 3. -/
theorem inmemory_create_id_range_witness :
    3 ≤ (InMemory.create_task InMemory.my_tasks 3 { name := "a", task := "a" }).1.id ∧
    (InMemory.create_task InMemory.my_tasks 3 { name := "a", task := "a" }).1.id ≤ 9999 ∧
    (InMemory.create_task InMemory.my_tasks 3 { name := "a", task := "a" }).1.id ≠ 1 ∧
    (InMemory.create_task InMemory.my_tasks 3 { name := "a", task := "a" }).1.id ≠ 2 :=
  inmemory_create_id_range InMemory.my_tasks { name := "a", task := "a" } 3
    (by decide) (by decide)

/-- Behaviour of GET /tasks/{task_id} packaged for claim C6: when a row
with the id exists the stored record is returned with status 200, and
otherwise the result is a 404 error whose detail message contains the
decimal rendering of the requested id as a substring. -/
def GetTaskSpec (db : FastapiEx.DB) (i : Int) : Prop :=
  (∀ t, db.find? (fun r => r.id == i) = some t →
     FastapiEx.get_task db i = .ok { status := 200, body := t }) ∧
  (db.find? (fun r => r.id == i) = none →
     ∃ e, FastapiEx.get_task db i = .error e ∧ e.status = 404 ∧
       (toString i).data <:+: e.detail.data)

/-- Claim C6: retrieve-by-id returns the stored record with success when
present and otherwise a 404 not-found error whose message contains the
requested id. -/
theorem get_task_found_or_404 (db : FastapiEx.DB) (i : Int) : GetTaskSpec db i := by
  constructor
  · intro t ht
    simp [FastapiEx.get_task, ht]
  · intro hn
    have he : FastapiEx.get_task db i =
        .error { status := 404
                 detail := "Task with id: " ++ toString i ++ " not found" } := by
      simp [FastapiEx.get_task, hn]
    refine ⟨_, he, rfl, ?_⟩
    refine ⟨("Task with id: ").data, (" not found").data, ?_⟩
    simp [String.data_append]

/-- Witness for `get_task_found_or_404`: GET /tasks/999 on an empty store
yields a 404 whose message contains the literal id 999. -/
theorem get_task_found_or_404_witness :
    ∃ e, FastapiEx.get_task [] 999 = .error e ∧ e.status = 404 ∧
      (toString (999 : Int)).data <:+: e.detail.data :=
  (get_task_found_or_404 [] 999).2 rfl

/-- Claim C8: an update or delete whose id is absent from the store
returns the 404 error and leaves the stored collection exactly unchanged,
in the SQLAlchemy variant and in the in-memory variant alike. -/
theorem absent_id_no_mutation (db : FastapiEx.DB) (mdb : List InMemory.StoredTask)
    (i j : Int) (u : FastapiEx.TaskUpdate) (m : InMemory.Task)
    (h1 : db.find? (fun t => t.id == i) = none)
    (h2 : InMemory.find_post_index j mdb = none) :
    FastapiEx.update_task db i u =
      (.error { status := 404
                detail := "Task with id: " ++ toString i ++ " does not exist" }, db) ∧
    FastapiEx.delete_task db i =
      (.error { status := 404
                detail := "Task with id: " ++ toString i ++ " does not exist" }, db) ∧
    InMemory.update_task mdb j m =
      (.error { status := 404
                detail := "Task not found with this id " ++ toString j }, mdb) ∧
    InMemory.delete_task mdb j =
      (.error { status := 404
                detail := "Task not found with this id " ++ toString j }, mdb) := by
  refine ⟨?_, ?_, ?_, ?_⟩
  · simp [FastapiEx.update_task, h1]
  · simp [FastapiEx.delete_task, h1]
  · simp [InMemory.update_task, h2]
  · simp [InMemory.delete_task, h2]

/-- Witness for `absent_id_no_mutation`: id 999 is absent both from a
one-row SQLAlchemy store and from the seeded in-memory store. -/
theorem absent_id_no_mutation_witness :
    FastapiEx.update_task
        [{ id := 1, name := "Buy milk", description := none
           completed := false, created_at := 0 }] 999 { completed := some true } =
      (.error { status := 404
                detail := "Task with id: " ++ toString (999 : Int) ++ " does not exist" },
       [{ id := 1, name := "Buy milk", description := none
          completed := false, created_at := 0 }]) ∧
    FastapiEx.delete_task
        [{ id := 1, name := "Buy milk", description := none
           completed := false, created_at := 0 }] 999 =
      (.error { status := 404
                detail := "Task with id: " ++ toString (999 : Int) ++ " does not exist" },
       [{ id := 1, name := "Buy milk", description := none
          completed := false, created_at := 0 }]) ∧
    InMemory.update_task InMemory.my_tasks 999 { name := "a", task := "a" } =
      (.error { status := 404
                detail := "Task not found with this id " ++ toString (999 : Int) },
       InMemory.my_tasks) ∧
    InMemory.delete_task InMemory.my_tasks 999 =
      (.error { status := 404
                detail := "Task not found with this id " ++ toString (999 : Int) },
       InMemory.my_tasks) :=
  absent_id_no_mutation
    [{ id := 1, name := "Buy milk", description := none
       completed := false, created_at := 0 }]
    InMemory.my_tasks 999 999 { completed := some true } { name := "a", task := "a" }
    (by rfl) (by rfl)

/-- Behaviour of the SQLAlchemy-variant PUT packaged for claim C1: the
updated record is returned with status 200; its `id` and `created_at`
equal those of the found row; every field absent from the input keeps its
prior value; every field present in the input takes the supplied value;
and the updated record is persisted in the resulting store. -/
def UpdateMergeSpec (db : FastapiEx.DB) (i : Int) (u : FastapiEx.TaskUpdate)
    (t : FastapiEx.Task) : Prop :=
  (FastapiEx.update_task db i u).1 =
    .ok { status := 200, body := FastapiEx.applyUpdate t u } ∧
  (FastapiEx.applyUpdate t u).id = t.id ∧
  (FastapiEx.applyUpdate t u).created_at = t.created_at ∧
  (u.name = none → (FastapiEx.applyUpdate t u).name = t.name) ∧
  (u.description = none → (FastapiEx.applyUpdate t u).description = t.description) ∧
  (u.completed = none → (FastapiEx.applyUpdate t u).completed = t.completed) ∧
  (∀ v, u.name = some v → (FastapiEx.applyUpdate t u).name = v) ∧
  (∀ v, u.description = some v → (FastapiEx.applyUpdate t u).description = v) ∧
  (∀ v, u.completed = some v → (FastapiEx.applyUpdate t u).completed = v) ∧
  FastapiEx.applyUpdate t u ∈ (FastapiEx.update_task db i u).2

/-- Claim C1 (amended to the SQLAlchemy variant): update applies exactly
the fields present in the input, omitted fields retain their prior
values, `id` and `created_at` never change, and the full updated record
is returned with success status and persisted. -/
theorem update_merge_patch (db : FastapiEx.DB) (i : Int) (u : FastapiEx.TaskUpdate)
    (t : FastapiEx.Task) (h : db.find? (fun r => r.id == i) = some t) :
    UpdateMergeSpec db i u t := by
  refine ⟨?_, rfl, rfl, ?_, ?_, ?_, ?_, ?_, ?_, ?_⟩
  · simp [FastapiEx.update_task, h]
  · intro hv; simp [FastapiEx.applyUpdate, hv]
  · intro hv; simp [FastapiEx.applyUpdate, hv]
  · intro hv; simp [FastapiEx.applyUpdate, hv]
  · intro v hv; simp [FastapiEx.applyUpdate, hv]
  · intro v hv; simp [FastapiEx.applyUpdate, hv]
  · intro v hv; simp [FastapiEx.applyUpdate, hv]
  · have hs : (FastapiEx.update_task db i u).2 =
        FastapiEx.setFirst (fun r => r.id == i) (FastapiEx.applyUpdate t u) db := by
      simp [FastapiEx.update_task, h]
    rw [hs]
    exact mem_setFirst (fun r => r.id == i) (FastapiEx.applyUpdate t u) db t h

/-- Witness for `update_merge_patch`: the spec scenario PUT
`{"completed": true}` on the stored task id 1 name "Buy milk". -/
theorem update_merge_patch_witness :
    UpdateMergeSpec
      [{ id := 1, name := "Buy milk", description := none
         completed := false, created_at := 0 }]
      1 { completed := some true }
      { id := 1, name := "Buy milk", description := none
        completed := false, created_at := 0 } :=
  update_merge_patch
    [{ id := 1, name := "Buy milk", description := none
       completed := false, created_at := 0 }]
    1 { completed := some true }
    { id := 1, name := "Buy milk", description := none
      completed := false, created_at := 0 }
    (by rfl)

/-- Counterexample to claim C1 as stated: in the in-memory variant
(`fastapi/main.py`), PUT replaces the whole stored dict with the dict of
the request model, so a body that omits `completed` (which therefore takes
the pydantic default false) overwrites a stored `completed = true` with
false instead of retaining it. -/
theorem inmemory_update_drops_completed :
    InMemory.put_tasks [{ id := 5, name := "a", task := "b", completed := some true }] 5
        { name := some "a", task := some "b", completed := none } =
      (.ok { status := 200
             body := { id := 5, name := "a", task := "b", completed := some false } },
       [{ id := 5, name := "a", task := "b", completed := some false }]) := by
  rfl

/-- Behaviour of the SQLAlchemy-variant DELETE packaged for claim C5:
deleting an absent id yields the 404 error and leaves the store unchanged;
deleting a present id yields an empty 204 response, and a subsequent
retrieve of the same id on the resulting store yields the 404 error. -/
def DeleteSpec (db : FastapiEx.DB) (i : Int) : Prop :=
  (db.find? (fun t => t.id == i) = none →
     FastapiEx.delete_task db i =
       (.error { status := 404
                 detail := "Task with id: " ++ toString i ++ " does not exist" }, db)) ∧
  (∀ t, db.find? (fun r => r.id == i) = some t →
     (FastapiEx.delete_task db i).1 = .ok { status := 204, body := () } ∧
     FastapiEx.get_task (FastapiEx.delete_task db i).2 i =
       .error { status := 404
                detail := "Task with id: " ++ toString i ++ " not found" })

/-- Claim C5: delete signals not-found on an absent id; on a present id
it removes the record, returns an empty no-content response, and a
retrieve of the same id afterwards yields not-found. The hypothesis that
stored ids are distinct is the primary-key uniqueness the relational
backend enforces on the `id` column. -/
theorem delete_then_retrieve_404 (db : FastapiEx.DB) (i : Int)
    (hnd : (db.map FastapiEx.Task.id).Nodup) : DeleteSpec db i := by
  constructor
  · intro h
    simp [FastapiEx.delete_task, h]
  · intro t ht
    have h1 : (FastapiEx.delete_task db i).1 = .ok { status := 204, body := () } := by
      simp [FastapiEx.delete_task, ht]
    have h2 : (FastapiEx.delete_task db i).2 =
        FastapiEx.eraseFirst (fun r => r.id == i) db := by
      simp [FastapiEx.delete_task, ht]
    refine ⟨h1, ?_⟩
    rw [h2]
    have hf := find?_eraseFirst_of_nodup i db hnd
    simp [FastapiEx.get_task, hf]

/-- Witness for `delete_then_retrieve_404`: the spec scenario DELETE then
GET on id 1 over a one-row store. -/
theorem delete_then_retrieve_404_witness :
    DeleteSpec
      [{ id := 1, name := "Buy milk", description := none
         completed := false, created_at := 0 }] 1 :=
  delete_then_retrieve_404
    [{ id := 1, name := "Buy milk", description := none
       completed := false, created_at := 0 }]
    1 (by decide)

/-- Behaviour of the SQLAlchemy-variant POST packaged for claim C7: a body
missing `name` is rejected with a 422 validation error and the store is
untouched; a body carrying only `name` is stored with null description and
completed false and returned with status 201. -/
def CreateValidationSpec (db : FastapiEx.DB) (freshId : Int) (now : Nat)
    (b : FastapiEx.RawBody) : Prop :=
  (b.name = none →
     FastapiEx.post_tasks db freshId now b =
       (.error { status := 422, detail := "field required" }, db)) ∧
  (∀ n, b = { name := some n } →
     FastapiEx.post_tasks db freshId now b =
       (.ok { status := 201
              body := { id := freshId, name := n, description := none
                        completed := false, created_at := now } },
        db ++ [{ id := freshId, name := n, description := none
                 completed := false, created_at := now }]))

/-- Claim C7 (amended to the SQLAlchemy variant): create rejects a body
missing `name` with a validation error before any storage access, and a
create with only `name` yields a stored record with null description and
completed false, returned with created status. -/
theorem create_validation (db : FastapiEx.DB) (freshId : Int) (now : Nat)
    (b : FastapiEx.RawBody) : CreateValidationSpec db freshId now b := by
  constructor
  · intro h
    simp [FastapiEx.post_tasks, FastapiEx.validate_create, h]
  · intro n hb
    subst hb
    simp [FastapiEx.post_tasks, FastapiEx.validate_create, FastapiEx.create_task]

/-- Witness for `create_validation`: the spec scenario `{"name":"Buy milk"}`
on an empty store with serial id 1 yields the record of the scenario with
status 201. -/
theorem create_validation_witness :
    FastapiEx.post_tasks [] 1 0 { name := some "Buy milk" } =
      (.ok { status := 201
             body := { id := 1, name := "Buy milk", description := none
                       completed := false, created_at := 0 } },
       [{ id := 1, name := "Buy milk", description := none
          completed := false, created_at := 0 }]) :=
  (create_validation [] 1 0 { name := some "Buy milk" }).2 "Buy milk" rfl

/-- Counterexample to claim C7 as stated: the in-memory variant's pydantic
model requires both `name` and `task`, so the body `{"name":"Buy milk"}`
is rejected with a 422 validation error there instead of creating a
record. -/
theorem inmemory_create_requires_task_field :
    InMemory.post_tasks InMemory.my_tasks 3 { name := some "Buy milk" } =
      (.error { status := 422, detail := "field required" }, InMemory.my_tasks) := by
  rfl

/-- Behaviour of the SQLAlchemy-variant GET /tasks packaged for claim C3:
status 200; the result is a subsequence of the store (storage order
preserved) of length at most `limit`, each returned task is stored and its
name matches the LIKE pattern built from `search`; the empty search
returns all records subject to skip/limit; and a search matching no stored
name returns the empty sequence. -/
def ListQuerySpec (db : FastapiEx.DB) (limit skip : Nat) (search : String) : Prop :=
  (FastapiEx.get_tasks db limit skip search).status = 200 ∧
  ((FastapiEx.get_tasks db limit skip search).body).Sublist db ∧
  ((FastapiEx.get_tasks db limit skip search).body).length ≤ limit ∧
  (∀ t ∈ (FastapiEx.get_tasks db limit skip search).body,
     t ∈ db ∧ FastapiEx.nameLike search t.name = true) ∧
  (FastapiEx.get_tasks db limit skip "").body = (db.drop skip).take limit ∧
  ((∀ t ∈ db, FastapiEx.nameLike search t.name = false) →
     (FastapiEx.get_tasks db limit skip search).body = [])

/-- Claim C3 (amended): the list operation returns, with success status
and in storage order, at most `limit` of the stored tasks whose name
matches the SQL LIKE pattern `%search%` (wildcards `%` and `_` in `search`
active) after dropping the first `skip` matches; `search=""` returns all
records subject to limit/skip, and a search matching no name returns the
empty sequence. -/
theorem list_like_pagination (db : FastapiEx.DB) (limit skip : Nat)
    (search : String) : ListQuerySpec db limit skip search := by
  refine ⟨rfl, ?_, ?_, ?_, ?_, ?_⟩
  · exact (List.take_sublist _ _).trans
      ((List.drop_sublist _ _).trans (List.filter_sublist db))
  · exact List.length_take_le _ _
  · intro t ht
    have h1 := List.mem_of_mem_take ht
    have h2 := List.mem_of_mem_drop h1
    exact List.mem_filter.mp h2
  · have hall : db.filter (fun t => FastapiEx.nameLike "" t.name) = db :=
      List.filter_eq_self.mpr (fun t _ => nameLike_empty_search t.name)
    simp [FastapiEx.get_tasks, hall]
  · intro h
    have hnil : db.filter (fun t => FastapiEx.nameLike search t.name) = [] :=
      List.filter_eq_nil_iff.mpr (fun t ht => by simp [h t ht])
    simp [FastapiEx.get_tasks, hnil]

/-- Witness for `list_like_pagination`: a search matching no stored name
returns the empty sequence on a concrete one-row store. -/
theorem list_like_pagination_witness :
    (FastapiEx.get_tasks
        [{ id := 1, name := "Buy milk", description := none
           completed := false, created_at := 0 }] 10 0 "zz").body = [] :=
  (list_like_pagination
      [{ id := 1, name := "Buy milk", description := none
         completed := false, created_at := 0 }] 10 0 "zz").2.2.2.2.2
    (by decide)

/-- Counterexample to claim C3 as stated: with the stored name "abc" and
search "a%c", the list operation returns the task because `%` is a LIKE
wildcard, although "a%c" is not a literal substring of "abc". -/
theorem list_search_not_literal_substring :
    (FastapiEx.get_tasks
        [{ id := 1, name := "abc", description := none
           completed := false, created_at := 0 }] 10 0 "a%c").body =
      [{ id := 1, name := "abc", description := none
         completed := false, created_at := 0 }] ∧
    ¬ (("a%c").data <:+: ("abc").data) := by
  exact ⟨by decide, by decide⟩

/-- Claim C10: the search filter is SQL LIKE with the term embedded
unescaped, so the search "x_" (with the single-character wildcard `_`)
returns the task named "xy" although "x_" is not a literal substring of
"xy". -/
theorem list_search_like_wildcards :
    (FastapiEx.get_tasks
        [{ id := 1, name := "xy", description := none
           completed := false, created_at := 0 }] 10 0 "x_").body =
      [{ id := 1, name := "xy", description := none
         completed := false, created_at := 0 }] ∧
    ¬ (("x_").data <:+: ("xy").data) := by
  exact ⟨by decide, by decide⟩
